import Mathlib

/-!
Shallow embedding of the liquidity-dashboard regime engine.

Source files modelled here:
  * `config.py` — threshold and hysteresis configuration constants;
  * `src/scoring/regime.py` — `RegimeState`, persistence helpers,
    `classify_regime`, `should_flip_regime`, `determine_regime`;
  * `src/data/transforms.py` — `calculate_delta_by_date`,
    `calculate_moving_average`, the BTC part of `calculate_metrics`;
  * `src/backend/scoring/engine.py` — the five metric scorers and the
    BTC-gate extraction in `calculate_scores`.

Modelling conventions:
  * Python floats are modelled as `Rat` (the data pipeline only performs
    field operations and comparisons; NaN never arises in the model).
  * Dates and timestamps are modelled as `Int` (days); the ISO-8601
    `regime_start_date` string becomes an `Option Int`.
  * A pandas data frame with a date column and a value column becomes a
    `List (Int × Rat)`; `DataFrame.sort_values` becomes a stable
    insertion sort by date.
  * Python `None` becomes `Option.none`; a dictionary field that may be
    absent is an `Option` of its value type, and `dict.get(k, d)` becomes
    `Option.getD`.
  * Python truthiness applied to an optional boolean (`x and y` where `y`
    may be `None`) is modelled by `truthy`.
  * Exceptions are modelled by `Option`/sum encodings of the failure
    cases; all Lean functions are total, which models the fact that the
    corresponding Python paths do not raise.
-/

namespace FlowState

/-! ### Configuration (`config.py`) -/

/-- Regime score thresholds from `config.REGIME_THRESHOLDS`. -/
structure RegimeThresholds where
  aggressive : Rat
  defensive : Rat

def REGIME_THRESHOLDS : RegimeThresholds :=
  { aggressive := 4, defensive := -4 }

/-- Hysteresis settings from `config.HYSTERESIS`. -/
structure HysteresisConfig where
  consecutive_days_required : Int
  margin_override : Rat

def HYSTERESIS : HysteresisConfig :=
  { consecutive_days_required := 2, margin_override := 1 }

/-- Per-metric thresholds from `config.METRIC_THRESHOLDS`. -/
structure MetricThresholds where
  walcl_delta_bullish : Rat
  walcl_delta_bearish : Rat
  rrp_delta_bullish : Rat
  rrp_delta_bearish : Rat
  hy_spread_bullish : Rat
  hy_spread_bearish : Rat
  dxy_bullish : Rat
  dxy_bearish : Rat
  stablecoin_bullish : Rat
  stablecoin_bearish : Rat

def METRIC_THRESHOLDS : MetricThresholds :=
  { walcl_delta_bullish := 5/1000
    walcl_delta_bearish := -5/1000
    rrp_delta_bullish := -5/100
    rrp_delta_bearish := 5/100
    hy_spread_bullish := -1/10
    hy_spread_bearish := 1/10
    dxy_bullish := -8/1000
    dxy_bearish := 8/1000
    stablecoin_bullish := 35/1000
    stablecoin_bearish := -35/1000 }

/-- Calculation windows from `config.WINDOWS`. -/
structure Windows where
  delta_days : Int
  stablecoin_days : Int
  ma_days : Nat

def WINDOWS : Windows :=
  { delta_days := 28, stablecoin_days := 21, ma_days := 200 }

/-! ### Helpers -/

/-- Python truthiness of an optional boolean: `None` and `False` are both
falsy.  Models expressions like `score >= t and btc_above_200dma` when
`btc_above_200dma` may be `None`. -/
def truthy : Option Bool → Bool
  | some b => b
  | none => false

/-- Python slice `l[-n:]`: the last `n` elements (the whole list when it is
shorter than `n`). -/
def lastN (n : Nat) (l : List α) : List α :=
  l.drop (l.length - n)

/-! ### Regime state (`src/scoring/regime.py`) -/

/-- `RegimeState` dataclass: tracks regime state with history for
hysteresis. -/
@[ext]
structure RegimeState where
  current_regime : String := "balanced"
  proposed_regime : String := "balanced"
  consecutive_days : Int := 0
  last_score : Rat := 0
  regime_start_date : Option Int := none
  score_history : List Rat := []
deriving Repr, DecidableEq

/-- The fresh default state `RegimeState()`. -/
def RegimeState.default : RegimeState := {}

/-- The JSON record written by `RegimeState.to_dict` and read by
`RegimeState.from_dict`.  Each field is wrapped in `Option` to model a key
that may be absent from the loaded dictionary; `regime_start_date` is
doubly wrapped because the stored value itself may be JSON null. -/
structure StateDict where
  current_regime : Option String := none
  proposed_regime : Option String := none
  consecutive_days : Option Int := none
  last_score : Option Rat := none
  regime_start_date : Option (Option Int) := none
  score_history : Option (List Rat) := none
deriving Repr, DecidableEq

/-- `RegimeState.to_dict`: serialize, keeping only the last 30 history
entries (`score_history[-30:]`). -/
def RegimeState.to_dict (s : RegimeState) : StateDict :=
  { current_regime := some s.current_regime
    proposed_regime := some s.proposed_regime
    consecutive_days := some s.consecutive_days
    last_score := some s.last_score
    regime_start_date := some s.regime_start_date
    score_history := some (lastN 30 s.score_history) }

/-- `RegimeState.from_dict`: each field read with `dict.get` and the
fresh-state default. -/
def RegimeState.from_dict (d : StateDict) : RegimeState :=
  { current_regime := d.current_regime.getD "balanced"
    proposed_regime := d.proposed_regime.getD "balanced"
    consecutive_days := d.consecutive_days.getD 0
    last_score := d.last_score.getD 0
    regime_start_date := d.regime_start_date.getD none
    score_history := d.score_history.getD [] }

/-- Content of the persisted state file as seen by `load_regime_state`:
`none` models a missing file (`state_file.exists()` false); `some none`
models a file whose read or JSON parse raises (caught by the bare
`except`); `some (some d)` models a successfully parsed record. -/
def FileContent := Option (Option StateDict)

/-- `load_regime_state`: parse the file if it exists, fall back to the
fresh default state on a missing file or any exception. -/
def load_regime_state (file : Option (Option StateDict)) : RegimeState :=
  match file with
  | some (some d) => RegimeState.from_dict d
  | some none => RegimeState.default
  | none => RegimeState.default

/-- `save_regime_state`: writes `state.to_dict()` as JSON, so the file
content after a save is exactly the serialized record. -/
def save_regime_state (s : RegimeState) : Option (Option StateDict) :=
  some (some s.to_dict)

/-! ### Classification and hysteresis (`src/scoring/regime.py`) -/

/-- `classify_regime`: classify a raw score into a regime, without
hysteresis.  The gate argument carries the (possibly `None`) value of
`btc_above_200dma`; the source reads it truthily. -/
def classify_regime (score : Rat) (btc_above_200dma : Option Bool) : String :=
  if score ≥ REGIME_THRESHOLDS.aggressive ∧ truthy btc_above_200dma then
    "aggressive"
  else if score ≤ REGIME_THRESHOLDS.defensive then
    "defensive"
  else
    "balanced"

/-- `should_flip_regime`: hysteresis rule — flip on enough consecutive
days, or on a sufficient score margin beyond the threshold. -/
def should_flip_regime (current proposed : String) (consecutive_days : Int)
    (score : Rat) : Bool :=
  if current = proposed then
    false
  else if consecutive_days ≥ HYSTERESIS.consecutive_days_required then
    true
  else
    let margin := HYSTERESIS.margin_override
    if proposed = "aggressive" then
      score ≥ REGIME_THRESHOLDS.aggressive + margin
    else if proposed = "defensive" then
      score ≤ REGIME_THRESHOLDS.defensive - margin
    else
      let distance_from_aggressive := REGIME_THRESHOLDS.aggressive - score
      let distance_from_defensive := score - REGIME_THRESHOLDS.defensive
      min distance_from_aggressive distance_from_defensive ≥ margin

/-- The `scores` dictionary consumed by `determine_regime`: the weighted
total and the (possibly `None`) BTC gate flag produced by
`calculate_scores`. -/
structure ScoresInput where
  total : Rat
  btc_above_200dma : Option Bool
deriving Repr

/-- The `regime_info` bundle returned by `determine_regime`. -/
structure RegimeInfo where
  regime : String
  proposed_regime : String
  score : Rat
  btc_gate_passed : Option Bool
  consecutive_days : Int
  days_in_regime : Option Int
  score_trend : String
  pending_flip : Bool
  days_until_flip : Option Int
deriving Repr

/-- The score-trend computation inlined in `determine_regime`: compare the
average of the last 3 of the last 5 scores with the average of the first 2
of those 5. -/
def score_trend (hist : List Rat) : String :=
  if hist.length ≥ 5 then
    let recent := lastN 5 hist
    let avg_recent := (lastN 3 recent).sum / 3
    let avg_prior := (recent.take 2).sum / 2
    if avg_recent > avg_prior + 1/2 then "improving"
    else if avg_recent < avg_prior - 1/2 then "deteriorating"
    else "flat"
  else "flat"

/-- `determine_regime`: one evaluation cycle of the hysteresis state
machine.  `now` is the current timestamp (`datetime.now()`); the state is
passed explicitly (the `state_file` loading and saving branches are
modelled separately by `load_regime_state` and `save_regime_state`). -/
def determine_regime (scores : ScoresInput) (state : RegimeState)
    (now : Int) : String × RegimeState × RegimeInfo :=
  let total_score := scores.total
  let btc_gate := scores.btc_above_200dma
  let proposed := classify_regime total_score btc_gate
  let s1 : RegimeState :=
    { state with
      score_history := state.score_history ++ [total_score]
      last_score := total_score }
  let s2 : RegimeState :=
    if proposed = s1.proposed_regime then
      { s1 with consecutive_days := s1.consecutive_days + 1 }
    else
      { s1 with proposed_regime := proposed, consecutive_days := 1 }
  let flip := should_flip_regime s2.current_regime proposed
      s2.consecutive_days total_score
  let s3 : RegimeState :=
    if flip then
      { s2 with
        current_regime := proposed
        regime_start_date := some now
        consecutive_days := 0 }
    else s2
  let days_in_regime := s3.regime_start_date.map (fun start => now - start)
  let info : RegimeInfo :=
    { regime := s3.current_regime
      proposed_regime := proposed
      score := total_score
      btc_gate_passed := btc_gate
      consecutive_days := s3.consecutive_days
      days_in_regime := days_in_regime
      score_trend := score_trend s3.score_history
      pending_flip := proposed ≠ s3.current_regime
      days_until_flip :=
        if proposed ≠ s3.current_regime then
          some (max 0 (HYSTERESIS.consecutive_days_required - s3.consecutive_days))
        else none }
  (s3.current_regime, s3, info)

/-! ### Data transforms (`src/data/transforms.py`) -/

/-- Insert a dated point into a date-sorted list, before the first point
with a strictly later date. -/
def insertByDate (p : Int × Rat) : List (Int × Rat) → List (Int × Rat)
  | [] => [p]
  | q :: rest => if p.1 < q.1 then p :: q :: rest else q :: insertByDate p rest

/-- `DataFrame.sort_values(date_col)`: sort the frame by date (insertion
sort; the relative order of equal dates is irrelevant to the properties
proved here, matching the unspecified tie order of the pandas sort). -/
def sort_values : List (Int × Rat) → List (Int × Rat)
  | [] => []
  | p :: rest => insertByDate p (sort_values rest)

/-- `calculate_delta_by_date`: percentage change over `days` using actual
dates.  The frame is `none` when the input is Python `None`; each point is
a (date, value) pair. -/
def calculate_delta_by_date (df : Option (List (Int × Rat))) (days : Int) :
    Option Rat :=
  match df with
  | none => none
  | some l =>
    if l.length = 0 then none
    else
      let s := sort_values l
      match s.getLast? with
      | none => none
      | some cur =>
        let target := cur.1 - days
        let past_df := s.filter (fun p => decide (p.1 ≤ target))
        match past_df.getLast? with
        | none => none
        | some past =>
          if past.2 = 0 then none
          else some ((cur.2 - past.2) / |past.2|)

/-- `calculate_moving_average`: simple moving average of the last `window`
points, `None` when the series is shorter than the window. -/
def calculate_moving_average (series : List Rat) (window : Nat) : Option Rat :=
  if series.length < window then none
  else some ((lastN window series).sum / (window : Rat))

/-- The `btc` entry computed by `calculate_metrics`, restricted to its
`above_200dma` key.  The outer `Option` models key presence: the key is
absent (`none`) when the BTC frame is missing or empty (the `btc` entry
stays the empty dict), and otherwise present with value
`current_price > ma_200` when both `current_price` and `ma_200` are
truthy, or null (`some none`) when the 200-sample average is unavailable
or either quantity is falsy. -/
def calculate_metrics_btc_above (btc_df : Option (List Rat)) :
    Option (Option Bool) :=
  match btc_df with
  | none => none
  | some prices =>
    if prices.length = 0 then none
    else
      match prices.getLast? with
      | none => none
      | some current_price =>
        match calculate_moving_average prices WINDOWS.ma_days with
        | none => some none
        | some ma =>
          if current_price ≠ 0 ∧ ma ≠ 0 then
            some (some (decide (current_price > ma)))
          else some none

/-- The BTC gate extraction in `calculate_scores`:
`btc.get("above_200dma", False)` — `False` when the key is absent,
otherwise the stored (possibly null) value. -/
def calculate_scores_btc_gate (above : Option (Option Bool)) : Option Bool :=
  above.getD (some false)

/-! ### Metric scorers (`src/backend/scoring/engine.py`) -/

/-- One metric sub-dictionary of the `metrics` dict; every key may be
absent (`dict.get` returns `None`). -/
structure MetricEntry where
  current : Option Rat := none
  delta_4w : Option Rat := none
  delta_21d : Option Rat := none
  acceleration : Option Rat := none
deriving Repr

/-- The `metrics` dictionary consumed by the scorers; each metric entry
defaults to the empty dict, and `btc` carries the possibly-absent
`above_200dma` key. -/
structure Metrics where
  walcl : MetricEntry := {}
  rrp : MetricEntry := {}
  hy_spread : MetricEntry := {}
  dxy : MetricEntry := {}
  stablecoin : MetricEntry := {}
  btc_above_200dma : Option (Option Bool) := none
deriving Repr

/-- Python `f"{x*100:+.1f}"`-style percentage rendering, modelled without
decimal rounding; no proved property depends on its exact text. -/
def fmtPct (x : Rat) : String :=
  toString (x * 100)

/-- Python truthiness of `accel and accel > 0` (None and 0.0 are falsy). -/
def accelPos : Option Rat → Bool
  | some a => decide (a > 0)
  | none => false

/-- Python truthiness of `accel and accel < 0`. -/
def accelNeg : Option Rat → Bool
  | some a => decide (a < 0)
  | none => false

/-- Python `f(...) if current else ""`: a level suffix shown only when
`current` is present and nonzero. -/
def levelStr (current : Option Rat) (f : Rat → String) : String :=
  match current with
  | some v => if v ≠ 0 then f v else ""
  | none => ""

/-- `score_walcl`: Fed balance sheet — expansion bullish. -/
def score_walcl (metrics : Metrics) : Int × String :=
  let walcl := metrics.walcl
  match walcl.delta_4w with
  | none => (0, "No data")
  | some delta =>
    if delta ≥ METRIC_THRESHOLDS.walcl_delta_bullish then
      if accelPos walcl.acceleration then
        (1, "Expanding +" ++ fmtPct delta ++ "% (accelerating)")
      else (1, "Expanding +" ++ fmtPct delta ++ "%")
    else if delta ≤ METRIC_THRESHOLDS.walcl_delta_bearish then
      if accelNeg walcl.acceleration then
        (-1, "Contracting " ++ fmtPct delta ++ "% (accelerating)")
      else (-1, "Contracting " ++ fmtPct delta ++ "%")
    else (0, "Flat (" ++ fmtPct delta ++ "%)")

/-- `score_rrp`: reverse repo — inverted, a decrease is bullish. -/
def score_rrp (metrics : Metrics) : Int × String :=
  let rrp := metrics.rrp
  match rrp.delta_4w with
  | none => (0, "No data")
  | some delta =>
    if delta ≤ METRIC_THRESHOLDS.rrp_delta_bullish then
      if accelNeg rrp.acceleration then
        (1, "Draining " ++ fmtPct delta ++ "% (accelerating)")
      else (1, "Draining " ++ fmtPct delta ++ "%")
    else if delta ≥ METRIC_THRESHOLDS.rrp_delta_bearish then
      if accelPos rrp.acceleration then
        (-1, "Building +" ++ fmtPct delta ++ "% (accelerating)")
      else (-1, "Building +" ++ fmtPct delta ++ "%")
    else (0, "Stable (" ++ fmtPct delta ++ "%)")

/-- `score_hy_spread`: high-yield credit spreads — inverted, tightening
bullish. -/
def score_hy_spread (metrics : Metrics) : Int × String :=
  let hy := metrics.hy_spread
  match hy.delta_4w with
  | none => (0, "No data")
  | some delta =>
    let ls := levelStr hy.current (fun c => " (" ++ fmtPct c ++ "bps)")
    if delta ≤ METRIC_THRESHOLDS.hy_spread_bullish then
      (1, "Tightening " ++ fmtPct delta ++ "%" ++ ls)
    else if delta ≥ METRIC_THRESHOLDS.hy_spread_bearish then
      (-1, "Widening +" ++ fmtPct delta ++ "%" ++ ls)
    else (0, "Stable (" ++ fmtPct delta ++ "%)" ++ ls)

/-- `score_dxy`: dollar index — inverted, a weakening dollar is
bullish. -/
def score_dxy (metrics : Metrics) : Int × String :=
  let dxy := metrics.dxy
  match dxy.delta_4w with
  | none => (0, "No data")
  | some delta =>
    let ls := levelStr dxy.current (fun c => " (" ++ toString c ++ ")")
    if delta ≤ METRIC_THRESHOLDS.dxy_bullish then
      (1, "Weakening " ++ fmtPct delta ++ "%" ++ ls)
    else if delta ≥ METRIC_THRESHOLDS.dxy_bearish then
      (-1, "Strengthening +" ++ fmtPct delta ++ "%" ++ ls)
    else (0, "Stable (" ++ fmtPct delta ++ "%)" ++ ls)

/-- `score_stablecoin`: stablecoin supply — growth bullish, keyed on the
21-day delta. -/
def score_stablecoin (metrics : Metrics) : Int × String :=
  let stable := metrics.stablecoin
  match stable.delta_21d with
  | none => (0, "No data")
  | some delta =>
    let ls := levelStr stable.current (fun c => " ($" ++ toString c ++ "B)")
    if delta ≥ METRIC_THRESHOLDS.stablecoin_bullish then
      (1, "Growing +" ++ fmtPct delta ++ "%" ++ ls)
    else if delta ≤ METRIC_THRESHOLDS.stablecoin_bearish then
      (-1, "Shrinking " ++ fmtPct delta ++ "%" ++ ls)
    else (0, "Flat (" ++ fmtPct delta ++ "%)" ++ ls)

end FlowState

namespace FlowState

/-! ### Theorems -/

/-- C3: the memoryless raw classification is aggressive exactly when the
score reaches the aggressive threshold with the gate truthy; otherwise
defensive exactly when the score is at or below the defensive threshold,
regardless of the gate; otherwise balanced.  A score at or above the
aggressive threshold with a falsy gate yields balanced, and a falsy gate
alone never yields defensive. -/
theorem classify_regime_spec (S : Rat) (G : Option Bool) :
    (classify_regime S G = "aggressive" ↔
      S ≥ REGIME_THRESHOLDS.aggressive ∧ truthy G = true)
    ∧ (¬(S ≥ REGIME_THRESHOLDS.aggressive ∧ truthy G = true) →
        (classify_regime S G = "defensive" ↔ S ≤ REGIME_THRESHOLDS.defensive))
    ∧ (¬(S ≥ REGIME_THRESHOLDS.aggressive ∧ truthy G = true) →
        ¬ S ≤ REGIME_THRESHOLDS.defensive →
        classify_regime S G = "balanced")
    ∧ (S ≥ REGIME_THRESHOLDS.aggressive → truthy G = false →
        classify_regime S G = "balanced")
    ∧ (truthy G = false → S > REGIME_THRESHOLDS.defensive →
        classify_regime S G ≠ "defensive") := by
  have hlt : REGIME_THRESHOLDS.defensive < REGIME_THRESHOLDS.aggressive := by
    unfold REGIME_THRESHOLDS; norm_num
  unfold classify_regime
  by_cases h1 : S ≥ REGIME_THRESHOLDS.aggressive ∧ truthy G = true <;>
    by_cases h2 : S ≤ REGIME_THRESHOLDS.defensive
  · exact absurd h2 (not_le.mpr (lt_of_lt_of_le hlt h1.1))
  · refine ⟨by simp [h1], fun hc => absurd h1 hc, fun hc => absurd h1 hc,
      fun _ hG => absurd h1.2 (by simp [hG]), fun hG _ => absurd h1.2 (by simp [hG])⟩
  · refine ⟨by simp [h1, h2], fun _ => by simp [h1, h2], fun _ hd => absurd h2 hd,
      fun hS hG => absurd h2 (not_le.mpr (lt_of_lt_of_le hlt hS)),
      fun hG hd => absurd h2 (not_le.mpr hd)⟩
  · refine ⟨by simp [h1, h2], fun _ => by simp [h1, h2], fun _ _ => by simp [h1, h2],
      fun _ _ => by simp [h1, h2], fun _ _ => by simp [h1, h2]⟩

/-- A flip decision implies the current and proposed regimes differ. -/
theorem should_flip_regime_ne {c p : String} {d : Int} {s : Rat}
    (h : should_flip_regime c p d s = true) : c ≠ p := by
  intro he
  unfold should_flip_regime at h
  simp [he] at h

/-- The raw classification is always one of the three regimes. -/
theorem classify_regime_mem (S : Rat) (G : Option Bool) :
    classify_regime S G = "aggressive" ∨ classify_regime S G = "defensive"
      ∨ classify_regime S G = "balanced" := by
  unfold classify_regime
  split_ifs <;> simp

/-- Unfolding lemma: the updated state returned by `determine_regime`,
field by field. -/
theorem determine_regime_state_eq (sc : ScoresInput) (st : RegimeState)
    (now : Int) :
    (determine_regime sc st now).2.1 =
      (let proposed := classify_regime sc.total sc.btc_above_200dma
       let cd1 : Int :=
         if proposed = st.proposed_regime then st.consecutive_days + 1 else 1
       let flip := should_flip_regime st.current_regime proposed cd1 sc.total
       { current_regime := if flip then proposed else st.current_regime
         proposed_regime := proposed
         consecutive_days := if flip then 0 else cd1
         last_score := sc.total
         regime_start_date := if flip then some now else st.regime_start_date
         score_history := st.score_history ++ [sc.total] }) := by
  simp only [determine_regime]
  by_cases hp : classify_regime sc.total sc.btc_above_200dma = st.proposed_regime <;>
    simp only [hp, if_pos, if_neg, ite_true, ite_false, if_true, if_false] <;>
    split_ifs <;> simp_all

/-- C1: on every evaluation cycle the hysteresis counters are updated as
specified — the proposed regime always becomes the raw classification;
when the raw classification matches the stored proposal the consecutive
counter is incremented, otherwise it is set to 1; when no flip occurs the
displayed regime and start date are untouched; exactly at a flip the
displayed regime becomes the raw classification, the start date becomes
the current time, and the counter resets to 0. -/
theorem determine_regime_hysteresis_update (sc : ScoresInput)
    (st : RegimeState) (now : Int) (raw : String) (cd1 : Int) (flip : Bool)
    (hraw : raw = classify_regime sc.total sc.btc_above_200dma)
    (hcd1 : cd1 = if raw = st.proposed_regime then st.consecutive_days + 1 else 1)
    (hflip : flip = should_flip_regime st.current_regime raw cd1 sc.total) :
    ((determine_regime sc st now).2.1).proposed_regime = raw
    ∧ (raw = st.proposed_regime → flip = false →
        ((determine_regime sc st now).2.1).consecutive_days = st.consecutive_days + 1)
    ∧ (raw ≠ st.proposed_regime → flip = false →
        ((determine_regime sc st now).2.1).consecutive_days = 1)
    ∧ (flip = false →
        ((determine_regime sc st now).2.1).current_regime = st.current_regime
        ∧ ((determine_regime sc st now).2.1).regime_start_date = st.regime_start_date)
    ∧ (flip = true →
        ((determine_regime sc st now).2.1).current_regime = raw
        ∧ ((determine_regime sc st now).2.1).regime_start_date = some now
        ∧ ((determine_regime sc st now).2.1).consecutive_days = 0)
    ∧ (((determine_regime sc st now).2.1).current_regime ≠ st.current_regime
        ↔ flip = true) := by
  subst hraw hcd1 hflip
  rw [determine_regime_state_eq]
  simp only []
  set raw := classify_regime sc.total sc.btc_above_200dma with hraw
  set cd1 : Int := if raw = st.proposed_regime then st.consecutive_days + 1 else 1
    with hcd1
  set flip := should_flip_regime st.current_regime raw cd1 sc.total with hflip
  refine ⟨by simp, ?_, ?_, ?_, ?_, ?_⟩
  · intro hp hf
    simp [hf, hcd1, hp]
  · intro hp hf
    simp [hf, hcd1, hp]
  · intro hf
    simp [hf]
  · intro hf
    simp [hf]
  · constructor
    · intro hne
      by_cases hf : flip = true
      · exact hf
      · simp only [Bool.not_eq_true] at hf
        simp [hf] at hne
    · intro hf
      simp only [hf, if_true, ite_true]
      exact fun he => (should_flip_regime_ne (hflip ▸ hf)) he.symm

/-- Witness for C1: a concrete cycle (score 5, gate true, fresh state)
produces a margin-override flip to aggressive with the counter reset to 0
and the start date set to the cycle timestamp. -/
theorem determine_regime_hysteresis_update_witness :
    ((determine_regime ⟨5, some true⟩ RegimeState.default 7).2.1).current_regime
        = "aggressive"
    ∧ ((determine_regime ⟨5, some true⟩ RegimeState.default 7).2.1).regime_start_date
        = some 7
    ∧ ((determine_regime ⟨5, some true⟩ RegimeState.default 7).2.1).consecutive_days
        = 0 := by
  have h := determine_regime_hysteresis_update ⟨5, some true⟩ RegimeState.default 7
      "aggressive" 1 true (by decide) (by decide)
      (by norm_num [should_flip_regime, RegimeState.default, REGIME_THRESHOLDS,
            HYSTERESIS]; decide)
  exact h.2.2.2.2.1 rfl

/-- Counterexample for C2 as stated: at a score exactly `margin_override`
above the aggressive threshold (score 5 with threshold 4 and margin 1),
the code flips even though the score does not exceed the threshold by
strictly more than the margin. -/
theorem should_flip_margin_boundary_cex :
    should_flip_regime "balanced" "aggressive" 1
        (REGIME_THRESHOLDS.aggressive + HYSTERESIS.margin_override) = true
    ∧ ¬(REGIME_THRESHOLDS.aggressive + HYSTERESIS.margin_override
          - REGIME_THRESHOLDS.aggressive > HYSTERESIS.margin_override) := by
  constructor
  · norm_num [should_flip_regime, REGIME_THRESHOLDS, HYSTERESIS]
    decide
  · unfold REGIME_THRESHOLDS HYSTERESIS
    norm_num

/-- C2 (amended): when the current and proposed regimes differ and the
consecutive-day requirement is not met, the flip decision is exactly the
margin-override test with a non-strict comparison — for a proposed
aggressive or defensive regime the flip occurs exactly when the score is
at least `margin_override` beyond the relevant threshold in the direction
of the proposed regime, and for a proposed balanced regime exactly when
the minimum of the distances to the two thresholds is at least
`margin_override`. -/
theorem should_flip_margin_override (current proposed : String) (days : Int)
    (score : Rat) (hne : current ≠ proposed)
    (hdays : days < HYSTERESIS.consecutive_days_required) :
    (proposed = "aggressive" →
      (should_flip_regime current proposed days score = true ↔
        score - REGIME_THRESHOLDS.aggressive ≥ HYSTERESIS.margin_override))
    ∧ (proposed = "defensive" →
      (should_flip_regime current proposed days score = true ↔
        REGIME_THRESHOLDS.defensive - score ≥ HYSTERESIS.margin_override))
    ∧ (proposed = "balanced" →
      (should_flip_regime current proposed days score = true ↔
        min (REGIME_THRESHOLDS.aggressive - score)
            (score - REGIME_THRESHOLDS.defensive) ≥ HYSTERESIS.margin_override)) := by
  have hd : ¬ days ≥ HYSTERESIS.consecutive_days_required := not_le.mpr hdays
  refine ⟨?_, ?_, ?_⟩ <;> intro hp <;> subst hp <;>
    simp only [should_flip_regime, if_neg hne, if_neg hd] <;> simp <;>
    constructor <;> intro h <;> linarith

/-- Witness for C2 (amended): with current balanced, proposed aggressive,
one consecutive day and score 6, the margin override fires. -/
theorem should_flip_margin_override_witness :
    should_flip_regime "balanced" "aggressive" 1 6 = true := by
  have h := (should_flip_margin_override "balanced" "aggressive" 1 6
      (by decide) (by decide)).1 rfl
  exact h.mpr (by norm_num [REGIME_THRESHOLDS, HYSTERESIS])

/-- A flip never happens when the current and proposed regimes agree. -/
theorem should_flip_regime_self (c : String) (d : Int) (s : Rat) :
    should_flip_regime c c d s = false := by
  unfold should_flip_regime
  simp

/-- C4: starting from a settled state (current equals proposed), a raw
classification that deviates for exactly one cycle without meeting the
margin override and then reverts leaves the displayed regime unchanged
through both cycles. -/
theorem hysteresis_single_cycle_noise
    (st : RegimeState) (sc1 sc2 : ScoresInput) (t1 t2 : Int)
    (hstart : st.current_regime = st.proposed_regime)
    (hne : classify_regime sc1.total sc1.btc_above_200dma ≠ st.current_regime)
    (hrevert : classify_regime sc2.total sc2.btc_above_200dma = st.current_regime)
    (hno_agg : classify_regime sc1.total sc1.btc_above_200dma = "aggressive" →
      sc1.total < REGIME_THRESHOLDS.aggressive + HYSTERESIS.margin_override)
    (hno_def : classify_regime sc1.total sc1.btc_above_200dma = "defensive" →
      REGIME_THRESHOLDS.defensive - HYSTERESIS.margin_override < sc1.total)
    (hno_bal : classify_regime sc1.total sc1.btc_above_200dma = "balanced" →
      min (REGIME_THRESHOLDS.aggressive - sc1.total)
          (sc1.total - REGIME_THRESHOLDS.defensive) < HYSTERESIS.margin_override) :
    ((determine_regime sc1 st t1).2.1).current_regime = st.current_regime
    ∧ ((determine_regime sc2 ((determine_regime sc1 st t1).2.1) t2).2.1).current_regime
        = st.current_regime := by
  have hne1 : ¬ classify_regime sc1.total sc1.btc_above_200dma = st.proposed_regime :=
    fun h => hne (h.trans hstart.symm)
  have hflip1 : should_flip_regime st.current_regime
      (classify_regime sc1.total sc1.btc_above_200dma) 1 sc1.total = false := by
    unfold should_flip_regime
    rw [if_neg (fun h => hne h.symm)]
    rw [if_neg (by norm_num [HYSTERESIS] : ¬ (1:Int) ≥ HYSTERESIS.consecutive_days_required)]
    rcases classify_regime_mem sc1.total sc1.btc_above_200dma with h | h | h <;>
      simp only [h]
    · simp only [String.reduceEq, reduceIte, if_true, ite_true, if_false,
        ite_false, decide_eq_false_iff_not]
      exact not_le.mpr (hno_agg h)
    · simp only [String.reduceEq, reduceIte, if_true, ite_true, if_false,
        ite_false, decide_eq_false_iff_not]
      exact not_le.mpr (hno_def h)
    · simp only [String.reduceEq, reduceIte, if_true, ite_true, if_false,
        ite_false, decide_eq_false_iff_not]
      exact not_le.mpr (hno_bal h)
  have h1 : ((determine_regime sc1 st t1).2.1).current_regime = st.current_regime := by
    rw [determine_regime_state_eq]
    simp only [if_neg hne1, hflip1]
    simp
  refine ⟨h1, ?_⟩
  rw [determine_regime_state_eq]
  simp only [hrevert, h1, should_flip_regime_self]
  simp

/-- Witness for C4: from the fresh balanced state, a one-cycle raw
excursion to aggressive at score 4.5 (gate true, margin not met) followed
by a revert to balanced leaves the displayed regime balanced through both
cycles. -/
theorem hysteresis_single_cycle_noise_witness :
    ((determine_regime ⟨9/2, some true⟩ RegimeState.default 1).2.1).current_regime
        = "balanced"
    ∧ ((determine_regime ⟨0, some true⟩
          ((determine_regime ⟨9/2, some true⟩ RegimeState.default 1).2.1) 2).2.1).current_regime
        = "balanced" := by
  have h := hysteresis_single_cycle_noise RegimeState.default ⟨9/2, some true⟩
      ⟨0, some true⟩ 1 2 rfl
      (by norm_num [classify_regime, truthy, REGIME_THRESHOLDS, RegimeState.default]
          decide)
      (by norm_num [classify_regime, truthy, REGIME_THRESHOLDS, RegimeState.default])
      (fun _ => by norm_num [REGIME_THRESHOLDS, HYSTERESIS])
      (fun _ => by norm_num [REGIME_THRESHOLDS, HYSTERESIS])
      (fun _ => by norm_num [REGIME_THRESHOLDS, HYSTERESIS, min_lt_iff])
  exact h

/-- Witness for C3: at score 5 with a false gate the raw classification is
balanced, and at score 5 with a true gate it is aggressive. -/
theorem classify_regime_spec_witness :
    classify_regime 5 (some false) = "balanced"
    ∧ classify_regime 5 (some true) = "aggressive" := by
  constructor
  · exact (classify_regime_spec 5 (some false)).2.2.2.1
      (by norm_num [REGIME_THRESHOLDS]) rfl
  · exact (classify_regime_spec 5 (some true)).1.mpr
      ⟨by norm_num [REGIME_THRESHOLDS], rfl⟩

/-- Counterexample for C7 as stated: a state whose in-memory history
already holds 30 entries holds 31 entries after one more evaluation cycle
— `determine_regime` appends without truncating, so the state held by the
engine is not capped at 30. -/
theorem score_history_inmemory_cex :
    ¬ ((determine_regime ⟨0, some false⟩
          { RegimeState.default with score_history := List.replicate 30 0 }
          0).2.1).score_history.length ≤ 30 := by
  rw [determine_regime_state_eq]
  simp

/-- C7 (amended): the persisted form of the state is a bounded rolling
log — serialization stores exactly the last 30 composite scores, hence at
most 30 entries; only the in-memory state between serializations may
exceed the cap. -/
theorem score_history_persisted_cap (s : RegimeState) :
    (RegimeState.to_dict s).score_history = some (lastN 30 s.score_history)
    ∧ (lastN 30 s.score_history).length ≤ 30 := by
  refine ⟨rfl, ?_⟩
  unfold lastN
  rw [List.length_drop]
  omega

/-- C8: saving and loading reproduces the state with every scalar field
intact and the history truncated to the 30-entry cap, and a record with
missing fields loads as the fresh-state defaults for those fields. -/
theorem state_roundtrip_spec (s : RegimeState) (d : StateDict) :
    RegimeState.from_dict (RegimeState.to_dict s) =
      { s with score_history := lastN 30 s.score_history }
    ∧ load_regime_state (save_regime_state s) =
      { s with score_history := lastN 30 s.score_history }
    ∧ (d.current_regime = none → (RegimeState.from_dict d).current_regime = "balanced")
    ∧ (d.proposed_regime = none → (RegimeState.from_dict d).proposed_regime = "balanced")
    ∧ (d.consecutive_days = none → (RegimeState.from_dict d).consecutive_days = 0)
    ∧ (d.last_score = none → (RegimeState.from_dict d).last_score = 0)
    ∧ (d.regime_start_date = none → (RegimeState.from_dict d).regime_start_date = none)
    ∧ (d.score_history = none → (RegimeState.from_dict d).score_history = []) := by
  refine ⟨rfl, rfl, ?_, ?_, ?_, ?_, ?_, ?_⟩ <;>
    intro h <;> simp [RegimeState.from_dict, h]

/-- Witness for C8: a concrete state with a two-entry history round-trips
with its fields intact, and the all-fields-missing record loads as the
fresh balanced default. -/
theorem state_roundtrip_spec_witness :
    RegimeState.from_dict
        (RegimeState.to_dict { RegimeState.default with score_history := [1, 2] })
      = { RegimeState.default with score_history := lastN 30 [1, 2] }
    ∧ (RegimeState.from_dict {}).current_regime = "balanced" :=
  ⟨(state_roundtrip_spec { RegimeState.default with score_history := [1, 2] } {}).1,
   (state_roundtrip_spec RegimeState.default {}).2.2.1 rfl⟩

/-- C9: a missing, corrupt, or unreadable state file loads as the fresh
default state — balanced current and proposed regimes, zero consecutive
days, empty history — and the loader is total, so the failure never
surfaces to the evaluation cycle. -/
theorem load_regime_state_failure_spec :
    load_regime_state none = RegimeState.default
    ∧ load_regime_state (some none) = RegimeState.default
    ∧ RegimeState.default.current_regime = "balanced"
    ∧ RegimeState.default.proposed_regime = "balanced"
    ∧ RegimeState.default.consecutive_days = 0
    ∧ RegimeState.default.score_history = ([] : List Rat) :=
  ⟨rfl, rfl, rfl, rfl, rfl, rfl⟩

/-- Sorting an already strictly date-sorted frame leaves it unchanged. -/
theorem sort_values_sorted_id (l : List (Int × Rat))
    (hs : l.Chain' (fun a b => a.1 < b.1)) : sort_values l = l := by
  induction l with
  | nil => rfl
  | cons p rest ih =>
    unfold sort_values
    rw [ih hs.tail]
    cases rest with
    | nil => rfl
    | cons q rest2 =>
      unfold insertByDate
      rw [if_pos hs.rel_head]

/-- In a strictly date-sorted list, the element whose date dominates all
others is the last element. -/
theorem getLast?_of_max (l : List (Int × Rat))
    (hp : l.Pairwise (fun a b => a.1 < b.1)) (x : Int × Rat) (hx : x ∈ l)
    (hmax : ∀ y ∈ l, y.1 ≤ x.1) : l.getLast? = some x := by
  induction l with
  | nil => cases hx
  | cons a rest ih =>
    cases rest with
    | nil =>
      simp only [List.mem_singleton] at hx
      simp [hx]
    | cons b rest2 =>
      rw [List.getLast?_cons_cons]
      have hpa := List.pairwise_cons.mp hp
      have hxa : x ≠ a := by
        intro he
        have hb := hmax b (by simp)
        have hab := hpa.1 b (by simp)
        rw [he] at hb
        exact absurd hb (not_le.mpr hab)
      have hx2 : x ∈ b :: rest2 := by
        rcases List.mem_cons.mp hx with h | h
        · exact absurd h hxa
        · exact h
      exact ih hpa.2 hx2 (fun y hy => hmax y (List.mem_cons_of_mem a hy))

/-- C5: `calculate_delta_by_date` on a date-sorted series with a positive
lookback returns the relative change `(current - past) / |past|`, where
current is the value of the last point and past is the value at the
latest date at or before `last_date - days`; it returns `None` (and, being
total, never raises) for an absent frame, for a series with fewer than 2
points, when no point lies at or before the cutoff, and when the past
value is 0. -/
theorem calculate_delta_by_date_spec (l : List (Int × Rat)) (days : Int)
    (hdays : 1 ≤ days) (hs : l.Chain' (fun a b => a.1 < b.1)) :
    calculate_delta_by_date none days = none
    ∧ (l.length < 2 → calculate_delta_by_date (some l) days = none)
    ∧ (∀ cur, l.getLast? = some cur →
        ((∀ p ∈ l, ¬ p.1 ≤ cur.1 - days) →
            calculate_delta_by_date (some l) days = none)
        ∧ (∀ pt, pt ∈ l → pt.1 ≤ cur.1 - days →
            (∀ q ∈ l, q.1 ≤ cur.1 - days → q.1 ≤ pt.1) →
            (pt.2 = 0 → calculate_delta_by_date (some l) days = none)
            ∧ (pt.2 ≠ 0 →
                calculate_delta_by_date (some l) days
                  = some ((cur.2 - pt.2) / |pt.2|)))) := by
  have hsid : sort_values l = l := sort_values_sorted_id l hs
  have hpw : l.Pairwise (fun a b => a.1 < b.1) := by
    letI : IsTrans (Int × Rat) (fun a b => a.1 < b.1) :=
      ⟨fun a b c h1 h2 => lt_trans h1 h2⟩
    exact List.chain'_iff_pairwise.mp hs
  refine ⟨rfl, ?_, ?_⟩
  · intro hlen
    match l, hlen with
    | [], _ => rfl
    | [p], _ =>
      have hpfalse : ¬ p.1 ≤ p.1 - days := by omega
      simp [calculate_delta_by_date, sort_values, insertByDate, hpfalse]
  · intro cur hcur
    have hne : l ≠ [] := by
      intro h
      rw [h] at hcur
      cases hcur
    have hlen0 : ¬ l.length = 0 := by
      simpa [List.length_eq_zero] using hne
    constructor
    · intro hnopast
      have hfilter : l.filter (fun p => decide (p.1 ≤ cur.1 - days)) = [] := by
        rw [List.filter_eq_nil_iff]
        intro a ha
        simpa using hnopast a ha
      simp only [calculate_delta_by_date, if_neg hlen0, hsid, hcur, hfilter,
        List.getLast?_nil]
    · intro pt hmem hle hmaxpt
      have hfl : (l.filter (fun p => decide (p.1 ≤ cur.1 - days))).getLast?
          = some pt := by
        apply getLast?_of_max
        · exact hpw.filter _
        · rw [List.mem_filter]
          exact ⟨hmem, by simpa using hle⟩
        · intro y hy
          rw [List.mem_filter] at hy
          exact hmaxpt y hy.1 (by simpa using hy.2)
      constructor
      · intro h0
        simp only [calculate_delta_by_date, if_neg hlen0, hsid, hcur, hfl]
        rw [if_pos h0]
      · intro h0
        simp only [calculate_delta_by_date, if_neg hlen0, hsid, hcur, hfl]
        rw [if_neg h0]

/-- Witness for C5: a two-point weekly-style series (day 0 value 10, day
30 value 12) with a 28-day lookback yields a delta of 20 percent. -/
theorem calculate_delta_by_date_spec_witness :
    calculate_delta_by_date (some [((0 : Int), (10 : Rat)), (30, 12)]) 28
      = some (1/5) := by
  have hch : List.Chain' (fun a b => a.1 < b.1)
      [((0 : Int), (10 : Rat)), (30, 12)] := by
    simp
  have h := ((calculate_delta_by_date_spec [((0 : Int), (10 : Rat)), (30, 12)] 28
      (by norm_num) hch).2.2 ((30 : Int), (12 : Rat)) (by simp)).2
      ((0 : Int), (10 : Rat)) (by simp) (by norm_num)
      (by
        intro q hq hle
        simp only [List.mem_cons, List.mem_singleton, List.not_mem_nil,
          or_false] at hq
        rcases hq with h | h
        · rw [h]
        · rw [h] at hle
          norm_num at hle)
  rw [h.2 (by norm_num)]
  norm_num

/-- Signal characterization for a non-inverted bullish and bearish
threshold pair. -/
theorem signal_iff_noninverted (d bull bear : Rat) (x : Int)
    (hlt : bear < bull)
    (hx : x = if d ≥ bull then 1 else if d ≤ bear then -1 else 0) :
    (x = 1 ↔ d ≥ bull) ∧ (x = -1 ↔ d ≤ bear)
    ∧ (x = 0 ↔ bear < d ∧ d < bull) := by
  subst hx
  split_ifs with h1 h2
  · exact ⟨⟨fun _ => h1, fun _ => rfl⟩,
      ⟨fun h => absurd h (by decide),
       fun h => absurd h1 (not_le.mpr (lt_of_le_of_lt h hlt))⟩,
      ⟨fun h => absurd h (by decide),
       fun h => absurd h1 (not_le.mpr h.2)⟩⟩
  · exact ⟨⟨fun h => absurd h (by decide), fun hb => absurd hb h1⟩,
      ⟨fun _ => h2, fun _ => rfl⟩,
      ⟨fun h => absurd h (by decide),
       fun h => absurd h2 (not_le.mpr h.1)⟩⟩
  · exact ⟨⟨fun h => absurd h (by decide), fun hb => absurd hb h1⟩,
      ⟨fun h => absurd h (by decide), fun hb => absurd hb h2⟩,
      ⟨fun _ => ⟨not_le.mp h2, not_le.mp h1⟩, fun _ => rfl⟩⟩

/-- Signal characterization for an inverted bullish and bearish threshold
pair (bullish below, bearish above). -/
theorem signal_iff_inverted (d bull bear : Rat) (x : Int)
    (hlt : bull < bear)
    (hx : x = if d ≤ bull then 1 else if d ≥ bear then -1 else 0) :
    (x = 1 ↔ d ≤ bull) ∧ (x = -1 ↔ d ≥ bear)
    ∧ (x = 0 ↔ bull < d ∧ d < bear) := by
  subst hx
  split_ifs with h1 h2
  · exact ⟨⟨fun _ => h1, fun _ => rfl⟩,
      ⟨fun h => absurd h (by decide),
       fun h => absurd h1 (not_le.mpr (lt_of_lt_of_le hlt h))⟩,
      ⟨fun h => absurd h (by decide),
       fun h => absurd h1 (not_le.mpr h.1)⟩⟩
  · exact ⟨⟨fun h => absurd h (by decide), fun hb => absurd hb h1⟩,
      ⟨fun _ => h2, fun _ => rfl⟩,
      ⟨fun h => absurd h (by decide),
       fun h => absurd h2 (not_le.mpr h.2)⟩⟩
  · exact ⟨⟨fun h => absurd h (by decide), fun hb => absurd hb h1⟩,
      ⟨fun h => absurd h (by decide), fun hb => absurd hb h2⟩,
      ⟨fun _ => ⟨not_le.mp h1, not_le.mp h2⟩, fun _ => rfl⟩⟩

/-- The WALCL signal as an if-chain on the delta. -/
theorem score_walcl_signal (m : Metrics) (d : Rat)
    (hd : m.walcl.delta_4w = some d) :
    (score_walcl m).1 = if d ≥ METRIC_THRESHOLDS.walcl_delta_bullish then 1
      else if d ≤ METRIC_THRESHOLDS.walcl_delta_bearish then -1 else 0 := by
  unfold score_walcl
  simp only []
  rw [hd]
  simp only []
  split_ifs <;> rfl

/-- The RRP signal as an if-chain on the delta. -/
theorem score_rrp_signal (m : Metrics) (d : Rat)
    (hd : m.rrp.delta_4w = some d) :
    (score_rrp m).1 = if d ≤ METRIC_THRESHOLDS.rrp_delta_bullish then 1
      else if d ≥ METRIC_THRESHOLDS.rrp_delta_bearish then -1 else 0 := by
  unfold score_rrp
  simp only []
  rw [hd]
  simp only []
  split_ifs <;> rfl

/-- The HY-spread signal as an if-chain on the delta. -/
theorem score_hy_spread_signal (m : Metrics) (d : Rat)
    (hd : m.hy_spread.delta_4w = some d) :
    (score_hy_spread m).1 = if d ≤ METRIC_THRESHOLDS.hy_spread_bullish then 1
      else if d ≥ METRIC_THRESHOLDS.hy_spread_bearish then -1 else 0 := by
  unfold score_hy_spread
  simp only []
  rw [hd]
  simp only []
  split_ifs <;> rfl

/-- The DXY signal as an if-chain on the delta. -/
theorem score_dxy_signal (m : Metrics) (d : Rat)
    (hd : m.dxy.delta_4w = some d) :
    (score_dxy m).1 = if d ≤ METRIC_THRESHOLDS.dxy_bullish then 1
      else if d ≥ METRIC_THRESHOLDS.dxy_bearish then -1 else 0 := by
  unfold score_dxy
  simp only []
  rw [hd]
  simp only []
  split_ifs <;> rfl

/-- The stablecoin signal as an if-chain on the 21-day delta. -/
theorem score_stablecoin_signal (m : Metrics) (d : Rat)
    (hd : m.stablecoin.delta_21d = some d) :
    (score_stablecoin m).1 =
      if d ≥ METRIC_THRESHOLDS.stablecoin_bullish then 1
      else if d ≤ METRIC_THRESHOLDS.stablecoin_bearish then -1 else 0 := by
  unfold score_stablecoin
  simp only []
  rw [hd]
  simp only []
  split_ifs <;> rfl

/-- C6: every metric scorer maps its delta to a signal in -1, 0, +1 by
directionally-aware thresholds — non-inverted for the Fed balance sheet
and stablecoin supply, inverted for reverse repo, credit spread and
dollar index — and an absent delta always yields signal 0 with reason
"No data"; every scorer is a total function, so none of them can
raise. -/
theorem metric_scorers_spec (m : Metrics) :
    (m.walcl.delta_4w = none → score_walcl m = (0, "No data"))
    ∧ (∀ d, m.walcl.delta_4w = some d →
        ((score_walcl m).1 = 1 ↔ d ≥ METRIC_THRESHOLDS.walcl_delta_bullish)
        ∧ ((score_walcl m).1 = -1 ↔ d ≤ METRIC_THRESHOLDS.walcl_delta_bearish)
        ∧ ((score_walcl m).1 = 0 ↔ METRIC_THRESHOLDS.walcl_delta_bearish < d
            ∧ d < METRIC_THRESHOLDS.walcl_delta_bullish))
    ∧ (m.rrp.delta_4w = none → score_rrp m = (0, "No data"))
    ∧ (∀ d, m.rrp.delta_4w = some d →
        ((score_rrp m).1 = 1 ↔ d ≤ METRIC_THRESHOLDS.rrp_delta_bullish)
        ∧ ((score_rrp m).1 = -1 ↔ d ≥ METRIC_THRESHOLDS.rrp_delta_bearish)
        ∧ ((score_rrp m).1 = 0 ↔ METRIC_THRESHOLDS.rrp_delta_bullish < d
            ∧ d < METRIC_THRESHOLDS.rrp_delta_bearish))
    ∧ (m.hy_spread.delta_4w = none → score_hy_spread m = (0, "No data"))
    ∧ (∀ d, m.hy_spread.delta_4w = some d →
        ((score_hy_spread m).1 = 1 ↔ d ≤ METRIC_THRESHOLDS.hy_spread_bullish)
        ∧ ((score_hy_spread m).1 = -1 ↔ d ≥ METRIC_THRESHOLDS.hy_spread_bearish)
        ∧ ((score_hy_spread m).1 = 0 ↔ METRIC_THRESHOLDS.hy_spread_bullish < d
            ∧ d < METRIC_THRESHOLDS.hy_spread_bearish))
    ∧ (m.dxy.delta_4w = none → score_dxy m = (0, "No data"))
    ∧ (∀ d, m.dxy.delta_4w = some d →
        ((score_dxy m).1 = 1 ↔ d ≤ METRIC_THRESHOLDS.dxy_bullish)
        ∧ ((score_dxy m).1 = -1 ↔ d ≥ METRIC_THRESHOLDS.dxy_bearish)
        ∧ ((score_dxy m).1 = 0 ↔ METRIC_THRESHOLDS.dxy_bullish < d
            ∧ d < METRIC_THRESHOLDS.dxy_bearish))
    ∧ (m.stablecoin.delta_21d = none → score_stablecoin m = (0, "No data"))
    ∧ (∀ d, m.stablecoin.delta_21d = some d →
        ((score_stablecoin m).1 = 1 ↔ d ≥ METRIC_THRESHOLDS.stablecoin_bullish)
        ∧ ((score_stablecoin m).1 = -1 ↔ d ≤ METRIC_THRESHOLDS.stablecoin_bearish)
        ∧ ((score_stablecoin m).1 = 0 ↔ METRIC_THRESHOLDS.stablecoin_bearish < d
            ∧ d < METRIC_THRESHOLDS.stablecoin_bullish)) := by
  refine ⟨?_, ?_, ?_, ?_, ?_, ?_, ?_, ?_, ?_, ?_⟩
  · intro h
    unfold score_walcl
    simp only []
    rw [h]
  · intro d hd
    exact signal_iff_noninverted d _ _ _ (by norm_num [METRIC_THRESHOLDS])
      (score_walcl_signal m d hd)
  · intro h
    unfold score_rrp
    simp only []
    rw [h]
  · intro d hd
    exact signal_iff_inverted d _ _ _ (by norm_num [METRIC_THRESHOLDS])
      (score_rrp_signal m d hd)
  · intro h
    unfold score_hy_spread
    simp only []
    rw [h]
  · intro d hd
    exact signal_iff_inverted d _ _ _ (by norm_num [METRIC_THRESHOLDS])
      (score_hy_spread_signal m d hd)
  · intro h
    unfold score_dxy
    simp only []
    rw [h]
  · intro d hd
    exact signal_iff_inverted d _ _ _ (by norm_num [METRIC_THRESHOLDS])
      (score_dxy_signal m d hd)
  · intro h
    unfold score_stablecoin
    simp only []
    rw [h]
  · intro d hd
    exact signal_iff_noninverted d _ _ _ (by norm_num [METRIC_THRESHOLDS])
      (score_stablecoin_signal m d hd)

/-- Witness for C6: the empty metrics dict scores 0 with "No data" on the
WALCL scorer, and a 1.0 delta scores +1. -/
theorem metric_scorers_spec_witness :
    score_walcl {} = (0, "No data")
    ∧ (score_walcl { walcl := { delta_4w := some 1 } }).1 = 1 := by
  constructor
  · exact (metric_scorers_spec {}).1 rfl
  · exact ((metric_scorers_spec { walcl := { delta_4w := some 1 } }).2.1 1
      rfl).1.mpr (by norm_num [METRIC_THRESHOLDS])

/-- A falsy gate never classifies as aggressive. -/
theorem classify_regime_gate_falsy (S : Rat) (G : Option Bool)
    (hG : truthy G = false) : classify_regime S G ≠ "aggressive" := by
  intro hagg
  unfold classify_regime at hagg
  rw [hG] at hagg
  simp only [Bool.false_eq_true, and_false, if_false, ite_false] at hagg
  split at hagg <;> exact absurd hagg (by decide)

/-- C10: when the BTC frame is absent, empty, or shorter than the
200-sample window, the gate extracted by the scoring engine is falsy, so
the raw classification is never aggressive at any composite score, and
the evaluation still returns one of the three regimes. -/
theorem btc_gate_missing_spec (btc_df : Option (List Rat)) (score : Rat)
    (h : btc_df = none
      ∨ ∃ l, btc_df = some l ∧ l.length < WINDOWS.ma_days) :
    truthy (calculate_scores_btc_gate (calculate_metrics_btc_above btc_df))
        = false
    ∧ classify_regime score
        (calculate_scores_btc_gate (calculate_metrics_btc_above btc_df))
        ≠ "aggressive"
    ∧ (classify_regime score
          (calculate_scores_btc_gate (calculate_metrics_btc_above btc_df))
          = "defensive"
       ∨ classify_regime score
          (calculate_scores_btc_gate (calculate_metrics_btc_above btc_df))
          = "balanced") := by
  have hgate : truthy (calculate_scores_btc_gate
      (calculate_metrics_btc_above btc_df)) = false := by
    rcases h with h | ⟨l, hl, hlen⟩
    · subst h
      rfl
    · subst hl
      unfold calculate_metrics_btc_above
      simp only []
      by_cases h0 : l.length = 0
      · rw [if_pos h0]
        rfl
      · rw [if_neg h0]
        have hne : l ≠ [] := by
          intro he
          rw [he] at h0
          exact h0 rfl
        obtain ⟨c, hc⟩ := Option.isSome_iff_exists.mp
          (List.getLast?_isSome.mpr hne)
        rw [hc]
        have hma : calculate_moving_average l WINDOWS.ma_days = none := by
          unfold calculate_moving_average
          rw [if_pos hlen]
        rw [hma]
        rfl
  refine ⟨hgate, classify_regime_gate_falsy _ _ hgate, ?_⟩
  rcases classify_regime_mem score
      (calculate_scores_btc_gate (calculate_metrics_btc_above btc_df))
    with h1 | h1 | h1
  · exact absurd h1 (classify_regime_gate_falsy _ _ hgate)
  · exact Or.inl h1
  · exact Or.inr h1

/-- Witness for C10: a five-point BTC series is shorter than the 200-day
window, so even at score 10 the classification is not aggressive. -/
theorem btc_gate_missing_spec_witness :
    truthy (calculate_scores_btc_gate
        (calculate_metrics_btc_above (some (List.replicate 5 1)))) = false
    ∧ classify_regime 10 (calculate_scores_btc_gate
        (calculate_metrics_btc_above (some (List.replicate 5 1))))
        ≠ "aggressive" := by
  have h := btc_gate_missing_spec (some (List.replicate 5 1)) 10
      (Or.inr ⟨List.replicate 5 1, rfl, by simp [WINDOWS]⟩)
  exact ⟨h.1, h.2.1⟩
